import Mathlib

/-!
Verification of the scoring / color-calibration / aggregation core of the
AI-automation dashboard.

The definitions below are a shallow embedding of:
  * `utils/calculations.py`  (class `AutomationCalculator`)
  * `utils/color_mapper.py`  (class `ColorMapper` and the module constants)
  * `utils/data_loader.py`   (`DataLoader.get_function` / `get_subfunction`,
                              the calibration performed by `load_industry`)
  * `components/insights.py` (the numeric core of `Insights.build_l1_summary`)
  * `components/subfunction.py` (the color pipeline of the subfunction page)

Python floats are modelled as exact rationals (`ℚ`); a value that may be
`None` or `NaN` is modelled by the three-constructor type `PyVal`.
The class-level mutable state of `ColorMapper` is modelled by the explicit
state record `ColorMapperState`, threaded through the functions that read
or write it.  Presentation-only fields (hover templates, customdata rows)
are not modelled; the four parallel arrays of the treemap payload are.
-/

/-- A Python value that may be `None`, a `NaN` float, or a number. -/
inductive PyVal where
  | none
  | nan
  | num (q : ℚ)
deriving DecidableEq

/-- The numeric content of a `PyVal`: mirrors the filter
`[s for s in scores if s is not None and not np.isnan(s)]`. -/
def PyVal.toNum : PyVal → Option ℚ
  | .num q => some q
  | _ => Option.none

/-- Subfunction record, as produced by `DataLoader.load_industry`:
`{"id", "name", "unit_cost_per_1000", "cost_pct_revenue", "automation_score",
  "automation_scores"}`.  The `automation_scores` dict is modelled by the
list of its values (`load_industry` stores the single-entry dict
`{"score": score}`). -/
structure Subfunction where
  id : String
  name : String
  unit_cost_per_1000 : ℚ
  cost_pct_revenue : ℚ
  automation_score : ℚ
  automation_scores : List ℚ
deriving DecidableEq

/-- Function (L1) record: `{"id", "name", "subfunctions"}`. -/
structure Func where
  id : String
  name : String
  subfunctions : List Subfunction
deriving DecidableEq

/-- Embeds `AutomationCalculator.get_automation_score`: `sum(scores.values())`. -/
def get_automation_score (scores : List ℚ) : ℚ := scores.sum

/-- Embeds `AutomationCalculator.get_function_unit_cost`:
`sum(sf["unit_cost_per_1000"] for sf in function["subfunctions"])`. -/
def get_function_unit_cost (function : Func) : ℚ :=
  (function.subfunctions.map (·.unit_cost_per_1000)).sum

/-- Embeds `AutomationCalculator.get_function_automation_score`: weighted average of
subfunction scores, weighted by `unit_cost_per_1000`; `0` when the total
cost is `0`. -/
def get_function_automation_score (function : Func) : ℚ :=
  let total_cost := (function.subfunctions.map (·.unit_cost_per_1000)).sum
  if total_cost = 0 then 0
  else
    (function.subfunctions.map
      (fun sf => get_automation_score sf.automation_scores * sf.unit_cost_per_1000)).sum
      / total_cost

/-! ### `utils/color_mapper.py` -/

/-- Module constant `COLOR_HIGH` ("Deep green — top 20%"). -/
def COLOR_HIGH : String := "#1A7A4A"

/-- Module constant `COLOR_MEDIUM` ("Light green — next 40%"). -/
def COLOR_MEDIUM : String := "#52B788"

/-- Module constant `COLOR_LOW` ("Yellow — bottom 40%"). -/
def COLOR_LOW : String := "#F4C542"

/-- Module constant `COLOR_DEFAULT = COLOR_LOW` (fallback before calibration). -/
def COLOR_DEFAULT : String := COLOR_LOW

/-- Module constant `LABEL_HIGH`. -/
def LABEL_HIGH : String := "High"

/-- Module constant `LABEL_MEDIUM`. -/
def LABEL_MEDIUM : String := "Medium"

/-- Module constant `LABEL_LOW`. -/
def LABEL_LOW : String := "Low"

/-- The class-level mutable state of `ColorMapper`: the per-industry
threshold dict `_thresholds : industry_key → (p80, p40)` (modelled as an
association list with Python-dict update semantics, see `dictInsert`) and
`_active_industry`. -/
structure ColorMapperState where
  thresholds : List (String × (ℚ × ℚ))
  active_industry : String
deriving DecidableEq

/-- The state at class definition time: `_thresholds = {}`,
`_active_industry = "_default"`. -/
def ColorMapper.initState : ColorMapperState := ⟨[], "_default"⟩

/-- Class attribute `_default_p80 = 4.0` (default before any calibration). -/
def ColorMapper._default_p80 : ℚ := 4

/-- Class attribute `_default_p40 = 3.0` (default before any calibration). -/
def ColorMapper._default_p40 : ℚ := 3

/-- Python dict update `d[k] = v`: replaces the binding of `k` in place if
present, appends it otherwise. -/
def dictInsert (d : List (String × (ℚ × ℚ))) (k : String) (v : ℚ × ℚ) :
    List (String × (ℚ × ℚ)) :=
  match d with
  | [] => [(k, v)]
  | (k₀, v₀) :: rest => if k₀ = k then (k, v) :: rest else (k₀, v₀) :: dictInsert rest k v

/-- Embeds `np.percentile(arr, q)` with the default linear-interpolation method:
sort ascending, take the virtual index `h = (n-1)·q/100`, and linearly
interpolate between the neighbouring ranks `⌊h⌋` and `⌊h⌋+1`. -/
def percentile (xs : List ℚ) (q : ℚ) : ℚ :=
  let s := List.insertionSort (· ≤ ·) xs
  let n := s.length
  let h : ℚ := ((n : ℚ) - 1) * q / 100
  let i : ℕ := (Int.floor h).toNat
  let lo := s.getD i 0
  let hi := s.getD (i + 1) lo
  lo + (h - (i : ℚ)) * (hi - lo)

/-- Embeds `ColorMapper.calibrate(scores, industry_key)`: no-op on an empty list;
filters out `None`/`NaN` entries; no-op if nothing remains; otherwise stores
`(p80, p40)` under `industry_key` and makes that key active. -/
def ColorMapper.calibrate (st : ColorMapperState) (scores : List PyVal)
    (industry_key : String := "_default") : ColorMapperState :=
  if scores.isEmpty then st
  else
    let arr := scores.filterMap PyVal.toNum
    if arr.isEmpty then st
    else
      let p80 := percentile arr 80
      let p40 := percentile arr 40
      { thresholds := dictInsert st.thresholds industry_key (p80, p40),
        active_industry := industry_key }

/-- Embeds `ColorMapper.set_active_industry(industry_key)`. -/
def ColorMapper.set_active_industry (st : ColorMapperState) (industry_key : String) :
    ColorMapperState :=
  { st with active_industry := industry_key }

/-- Embeds `ColorMapper._get_thresholds()`:
`_thresholds.get(_active_industry, (_default_p80, _default_p40))`. -/
def ColorMapper._get_thresholds (st : ColorMapperState) : ℚ × ℚ :=
  (st.thresholds.lookup st.active_industry).getD
    (ColorMapper._default_p80, ColorMapper._default_p40)

/-- Embeds `ColorMapper.get_color(score)`; the possibly-`None` score is an
`Option ℚ`. -/
def ColorMapper.get_color (st : ColorMapperState) (score : Option ℚ) : String :=
  match score with
  | Option.none => COLOR_DEFAULT
  | some s =>
    let t := ColorMapper._get_thresholds st
    if s ≥ t.1 then COLOR_HIGH
    else if s ≥ t.2 then COLOR_MEDIUM
    else COLOR_LOW

/-- Embeds `ColorMapper.get_label(score)`. -/
def ColorMapper.get_label (st : ColorMapperState) (score : Option ℚ) : String :=
  match score with
  | Option.none => LABEL_LOW
  | some s =>
    let t := ColorMapper._get_thresholds st
    if s ≥ t.1 then LABEL_HIGH
    else if s ≥ t.2 then LABEL_MEDIUM
    else LABEL_LOW

/-! ### `utils/data_loader.py` — lookups and the calibration done on load

Reading the spreadsheet is I/O and stays outside the embedding; the
functions below take the `functions` list of the loaded industry explicitly
(the `data["functions"]` of the `load_industry` result). -/

/-- Embeds `DataLoader.get_function(industry, function_id)`:
`next((f for f in data["functions"] if f["id"] == function_id), None)`. -/
def get_function (functions : List Func) (function_id : String) : Option Func :=
  functions.find? (fun f => f.id == function_id)

/-- Embeds `DataLoader.get_subfunction(industry, function_id, subfunction_id)`:
returns `None` when the function is not found, otherwise
`next((sf for sf in function["subfunctions"] if sf["id"] == subfunction_id), None)`. -/
def get_subfunction (functions : List Func) (function_id subfunction_id : String) :
    Option Subfunction :=
  match get_function functions function_id with
  | Option.none => Option.none
  | some f => f.subfunctions.find? (fun sf => sf.id == subfunction_id)

/-- The calibration performed at the end of `DataLoader.load_industry` on a
cache miss: `all_scores = [sf["automation_score"] for f in functions for sf
in f["subfunctions"]]`, then `ColorMapper.calibrate(all_scores,
industry_key=industry.lower())` followed by
`ColorMapper.set_active_industry(industry.lower())`.  `industry_key` here
is the already-lowercased `industry.lower()` (case conversion of the page
parameter is not modelled). -/
def load_industry_calibration (st : ColorMapperState) (functions : List Func)
    (industry_key : String) : ColorMapperState :=
  let all_scores :=
    ((functions.map (fun f => f.subfunctions.map (·.automation_score))).flatten).map PyVal.num
  ColorMapper.set_active_industry
    (ColorMapper.calibrate st all_scores industry_key) industry_key

/-! ### Treemap layout payloads (`utils/calculations.py`, `components/subfunction.py`) -/

/-- The four parallel arrays of a treemap payload (`customdata`, a
presentation-metadata echo of the same per-node numbers, is not modelled). -/
structure TreemapData where
  labels : List String
  parents : List String
  values : List ℚ
  colors : List String
deriving DecidableEq

/-- Embeds `AutomationCalculator.build_subfunction_treemap_data(function)`: a root
node (`function["name"]`, parent `""`, value `0`, color `"#132038"`)
followed by one node per subfunction, whose color and label come from the
`ColorMapper` in its current state — the builder itself performs no
calibration. -/
def build_subfunction_treemap_data (st : ColorMapperState) (function : Func) :
    TreemapData :=
  { labels := function.name :: function.subfunctions.map (·.name)
    parents := "" :: function.subfunctions.map (fun _ => function.name)
    values := 0 :: function.subfunctions.map (·.unit_cost_per_1000)
    colors := "#132038" :: function.subfunctions.map (fun sf =>
      ColorMapper.get_color st (some (get_automation_score sf.automation_scores))) }

/-- The data path of the subfunction page (`components/subfunction.py`,
`load_subfunction` → `build_subfunction_figure`):
`DataLoader.get_function` loads the industry — calibrating the
`ColorMapper` over ALL of the subfunction scores of the industry — and the
payload of the figure is `build_subfunction_treemap_data` under that state. -/
def subfunction_page_data (st : ColorMapperState) (functions : List Func)
    (industry function_id : String) : Option TreemapData :=
  let st1 := load_industry_calibration st functions industry
  (get_function functions function_id).map (build_subfunction_treemap_data st1)

/-! ### Numeric core of `Insights.build_l1_summary` (`components/insights.py`) -/

/-- Tie mode of Python `round(q, 2)`: round half to even, on exact rationals
(binary floating-point representation error is not modelled). -/
def roundHalfEven (q : ℚ) : ℤ :=
  let f := Int.floor q
  let r := q - (f : ℚ)
  if r < 1/2 then f
  else if r > 1/2 then f + 1
  else if 2 ∣ f then f else f + 1

/-- Python `round(q, 2)`. -/
def round2 (q : ℚ) : ℚ := (roundHalfEven (q * 100) : ℚ) / 100

/-- The per-function score of `Insights.build_l1_summary`:
`avg_score = sum(sf["automation_score"] for sf in sfs) / len(sfs) if sfs else 0`,
stored as `"score": round(avg_score, 2)`.  A simple (unweighted) mean of the
stored subfunction scores — not `get_function_automation_score`. -/
def l1_summary_func_score (f : Func) : ℚ :=
  round2 (if f.subfunctions.isEmpty then 0
    else (f.subfunctions.map (·.automation_score)).sum / (f.subfunctions.length : ℚ))

/-- The industry-level average of `Insights.build_l1_summary`:
`overall_avg = round(sum(s["score"] for s in func_stats) / len(func_stats), 2)`.
(`build_l1_summary` returns an empty-state panel before this line when the
functions list is empty, so it is only formed for a non-empty list.) -/
def build_l1_summary_overall_avg (functions : List Func) : ℚ :=
  round2 ((functions.map l1_summary_func_score).sum / (functions.length : ℚ))

/-! ### Tier order (for the monotonicity property) -/

/-- Position of a label in the tier order Low ≤ Medium ≤ High. -/
def labelRank (l : String) : ℕ :=
  if l = LABEL_HIGH then 2 else if l = LABEL_MEDIUM then 1 else 0

/-- Position of a tier color in the order Low ≤ Medium ≤ High. -/
def colorRank (c : String) : ℕ :=
  if c = COLOR_HIGH then 2 else if c = COLOR_MEDIUM then 1 else 0

/-! ### Concrete data used by witnesses and counterexamples

`funcA`/`funcB` are the two functions of the end-to-end "bfsi" example of the spec
example (costs [10, 20] with scores [2, 4], and costs [5, 5] with scores
[3, 3]); `load_industry` would populate both cost fields with the same
spreadsheet column and `automation_scores = {"score": score}`. -/

def sfA1 : Subfunction := ⟨"a1", "A1", 10, 10, 2, [2]⟩
def sfA2 : Subfunction := ⟨"a2", "A2", 20, 20, 4, [4]⟩
def sfB1 : Subfunction := ⟨"b1", "B1", 5, 5, 3, [3]⟩
def sfB2 : Subfunction := ⟨"b2", "B2", 5, 5, 3, [3]⟩
def funcA : Func := ⟨"function_a", "Function A", [sfA1, sfA2]⟩
def funcB : Func := ⟨"function_b", "Function B", [sfB1, sfB2]⟩
def bfsiFunctions : List Func := [funcA, funcB]

/-- A function with no subfunctions. -/
def funcEmpty : Func := ⟨"empty", "Empty", []⟩

/-- An industry whose two functions have contrasting score ranges: used to
exhibit the difference between industry-wide and per-function calibration. -/
def sfLow1 : Subfunction := ⟨"low1", "Low 1", 1, 1, 1, [1]⟩
def sfLow2 : Subfunction := ⟨"low2", "Low 2", 1, 1, 2, [2]⟩
def sfHigh1 : Subfunction := ⟨"high1", "High 1", 1, 1, 4, [4]⟩
def sfHigh2 : Subfunction := ⟨"high2", "High 2", 1, 1, 5, [5]⟩
def funcLow : Func := ⟨"flow", "Low Function", [sfLow1, sfLow2]⟩
def funcHigh : Func := ⟨"fhigh", "High Function", [sfHigh1, sfHigh2]⟩
def contrastFunctions : List Func := [funcLow, funcHigh]

/-- The `ColorMapper` state produced by calibrating the fresh mapper on the
scores `[1, …, 10]` (the percentile example of the spec). -/
def calExampleState : ColorMapperState :=
  ColorMapper.calibrate ColorMapper.initState
    [PyVal.num 1, PyVal.num 2, PyVal.num 3, PyVal.num 4, PyVal.num 5,
     PyVal.num 6, PyVal.num 7, PyVal.num 8, PyVal.num 9, PyVal.num 10] "k"

/-! ## Theorems -/

/-- Writing `d[k] = v` twice into a Python dict is the same as writing it
once. -/
theorem dictInsert_idem (d : List (String × (ℚ × ℚ))) (k : String) (v : ℚ × ℚ) :
    dictInsert (dictInsert d k v) k v = dictInsert d k v := by
  induction d with
  | nil => simp [dictInsert]
  | cons hd tl ih =>
    obtain ⟨k₀, v₀⟩ := hd
    by_cases h : k₀ = k
    · simp [dictInsert, h]
    · simp [dictInsert, h, ih]

/-- Every subfunction dict built by `DataLoader.load_industry` carries the
same parsed spreadsheet cost in `unit_cost_per_1000` and
`cost_pct_revenue`. -/
theorem load_row_cost_fields_eq (id name : String) (cost score : ℚ) :
    (Subfunction.mk id name cost cost score [score]).unit_cost_per_1000
      = (Subfunction.mk id name cost cost score [score]).cost_pct_revenue := rfl

/-- Lookup finds the binding just written by `dictInsert`. -/
theorem lookup_dictInsert (d : List (String × (ℚ × ℚ))) (k : String) (v : ℚ × ℚ) :
    (dictInsert d k v).lookup k = some v := by
  induction d with
  | nil => simp [dictInsert, List.lookup]
  | cons hd tl ih =>
    obtain ⟨k₀, v₀⟩ := hd
    by_cases h : k₀ = k
    · simp [dictInsert, h, List.lookup]
    · have hne : (k == k₀) = false := by
        simp [beq_iff_eq]
        exact Ne.symm h
      simp [dictInsert, h, List.lookup, hne, ih]

/-- The function `percentile` is monotone in the requested rank: on a
non-empty list, a higher rank gives a value at least as large. -/
theorem percentile_mono (xs : List ℚ) (hxs : xs ≠ []) (q₁ q₂ : ℚ)
    (hq0 : 0 ≤ q₁) (hq12 : q₁ ≤ q₂) (hq100 : q₂ ≤ 100) :
    percentile xs q₁ ≤ percentile xs q₂ := by
  simp only [percentile]
  set s := List.insertionSort (· ≤ ·) xs with hsdef
  have hsorted : List.Sorted (· ≤ ·) s := List.sorted_insertionSort _ xs
  have hn : 0 < s.length := by
    rw [hsdef, List.length_insertionSort]
    exact List.length_pos.mpr hxs
  set n := s.length with hndef
  have hn1 : (0 : ℚ) ≤ (n : ℚ) - 1 := by
    have h1 : (1 : ℚ) ≤ (n : ℚ) := by exact_mod_cast hn
    linarith
  set h₁ : ℚ := ((n : ℚ) - 1) * q₁ / 100 with hh₁
  set h₂ : ℚ := ((n : ℚ) - 1) * q₂ / 100 with hh₂
  have h10 : 0 ≤ h₁ := div_nonneg (mul_nonneg hn1 hq0) (by norm_num)
  have h12 : h₁ ≤ h₂ := by
    rw [hh₁, hh₂]
    have hm : ((n : ℚ) - 1) * q₁ ≤ ((n : ℚ) - 1) * q₂ :=
      mul_le_mul_of_nonneg_left hq12 hn1
    linarith
  have h20 : 0 ≤ h₂ := le_trans h10 h12
  have h2top : h₂ ≤ (n : ℚ) - 1 := by
    rw [hh₂]
    have hm : ((n : ℚ) - 1) * q₂ ≤ ((n : ℚ) - 1) * 100 :=
      mul_le_mul_of_nonneg_left hq100 hn1
    linarith
  set i₁ : ℕ := (Int.floor h₁).toNat with hi₁
  set i₂ : ℕ := (Int.floor h₂).toNat with hi₂
  have hfl₁ : ((i₁ : ℤ) : ℚ) = ((Int.floor h₁ : ℤ) : ℚ) := by
    rw [hi₁, Int.toNat_of_nonneg (Int.floor_nonneg.mpr h10)]
  have hfl₂ : ((i₂ : ℤ) : ℚ) = ((Int.floor h₂ : ℤ) : ℚ) := by
    rw [hi₂, Int.toNat_of_nonneg (Int.floor_nonneg.mpr h20)]
  have hle₁ : (i₁ : ℚ) ≤ h₁ := by
    have := Int.floor_le h₁
    push_cast at hfl₁
    linarith [hfl₁ ▸ this]
  have hlt₁ : h₁ < (i₁ : ℚ) + 1 := by
    have := Int.lt_floor_add_one h₁
    push_cast at hfl₁
    linarith
  have hle₂ : (i₂ : ℚ) ≤ h₂ := by
    have := Int.floor_le h₂
    push_cast at hfl₂
    linarith
  have hlt₂ : h₂ < (i₂ : ℚ) + 1 := by
    have := Int.lt_floor_add_one h₂
    push_cast at hfl₂
    linarith
  have hi12 : i₁ ≤ i₂ := by
    rw [hi₁, hi₂]
    exact Int.toNat_le_toNat (Int.floor_le_floor h12)
  have hi2n : i₂ < n := by
    have hcast : ((((n : ℤ) - 1 : ℤ)) : ℚ) = (n : ℚ) - 1 := by push_cast; ring
    have hfloor : Int.floor h₂ ≤ (n : ℤ) - 1 := by
      have hmono := Int.floor_le_floor (le_of_le_of_eq h2top hcast.symm)
      rwa [Int.floor_intCast] at hmono
    have hle : (i₂ : ℤ) ≤ (n : ℤ) - 1 := by
      rw [hi₂, Int.toNat_of_nonneg (Int.floor_nonneg.mpr h20)]
      exact hfloor
    omega
  have hi1n : i₁ < n := lt_of_le_of_lt hi12 hi2n
  have hgetDd : ∀ (a : ℕ) (d : ℚ), a < n → s.getD a d = s.getD a 0 := by
    intro a d ha
    rw [List.getD_eq_getElem?_getD, List.getD_eq_getElem?_getD,
      List.getElem?_eq_getElem ha]
    simp
  have hmono : ∀ a b : ℕ, a ≤ b → b < n → s.getD a 0 ≤ s.getD b 0 := by
    intro a b hab hb
    have ha : a < n := lt_of_le_of_lt hab hb
    rw [List.getD_eq_getElem?_getD, List.getElem?_eq_getElem ha,
      List.getD_eq_getElem?_getD, List.getElem?_eq_getElem hb]
    simp only [Option.getD_some]
    have := List.Sorted.rel_get_of_le hsorted
      (a := ⟨a, ha⟩) (b := ⟨b, hb⟩) (Fin.mk_le_mk.mpr hab)
    simpa [List.get_eq_getElem] using this
  set lo₁ := s.getD i₁ 0 with hlo₁
  set hi₁v := s.getD (i₁ + 1) lo₁ with hhi₁v
  set lo₂ := s.getD i₂ 0 with hlo₂
  set hi₂v := s.getD (i₂ + 1) lo₂ with hhi₂v
  have hlohi₁ : lo₁ ≤ hi₁v := by
    by_cases hb : i₁ + 1 < n
    · rw [hhi₁v, hgetDd _ _ hb]
      exact hmono i₁ (i₁ + 1) (Nat.le_succ _) hb
    · rw [hhi₁v, List.getD_eq_default]
      omega
  have hlohi₂ : lo₂ ≤ hi₂v := by
    by_cases hb : i₂ + 1 < n
    · rw [hhi₂v, hgetDd _ _ hb]
      exact hmono i₂ (i₂ + 1) (Nat.le_succ _) hb
    · rw [hhi₂v, List.getD_eq_default]
      omega
  rcases Nat.lt_or_ge i₁ i₂ with hcase | hcase
  · -- i₁ < i₂ : value₁ ≤ hi₁v ≤ lo₂ ≤ value₂
    have hval₁ : lo₁ + (h₁ - (i₁ : ℚ)) * (hi₁v - lo₁) ≤ hi₁v := by
      have hfac : (0 : ℚ) ≤ (1 - (h₁ - (i₁ : ℚ))) * (hi₁v - lo₁) :=
        mul_nonneg (by linarith) (by linarith)
      nlinarith [hfac]
    have hmid : hi₁v ≤ lo₂ := by
      have hb : i₁ + 1 < n := lt_of_le_of_lt hcase hi2n
      rw [hhi₁v, hgetDd _ _ hb, hlo₂]
      exact hmono (i₁ + 1) i₂ hcase hi2n
    have hval₂ : lo₂ ≤ lo₂ + (h₂ - (i₂ : ℚ)) * (hi₂v - lo₂) := by
      have hfac : (0 : ℚ) ≤ (h₂ - (i₂ : ℚ)) * (hi₂v - lo₂) :=
        mul_nonneg (by linarith) (by linarith)
      linarith
    linarith
  · -- i₁ = i₂ : same bracket, interpolation is monotone
    have heq : i₁ = i₂ := le_antisymm hi12 hcase
    have hlo : lo₂ = lo₁ := by
      simp only [hlo₂, hlo₁, heq]
    have hhiv : hi₂v = hi₁v := by
      simp only [hhi₂v, hhi₁v, hlo₂, hlo₁, heq]
    have hfac : (h₁ - (i₁ : ℚ)) * (hi₁v - lo₁) ≤ (h₂ - (i₁ : ℚ)) * (hi₁v - lo₁) :=
      mul_le_mul_of_nonneg_right (by linarith) (by linarith)
    rw [hlo, hhiv, ← heq]
    linarith [hfac]

/-- Every calibration that stores thresholds stores an ordered pair: the
`(p80, p40)` written under the key satisfies `p40 ≤ p80`.  This justifies
the ordering hypothesis assumed by the tier theorems — every reachable
threshold pair (stored or default `(4, 3)`) is ordered. -/
theorem calibrate_stores_ordered_thresholds (st : ColorMapperState)
    (scores : List PyVal) (key : String)
    (h : scores.filterMap PyVal.toNum ≠ []) :
    (ColorMapper.calibrate st scores key).thresholds.lookup key
        = some (percentile (scores.filterMap PyVal.toNum) 80,
                percentile (scores.filterMap PyVal.toNum) 40) ∧
    percentile (scores.filterMap PyVal.toNum) 40
      ≤ percentile (scores.filterMap PyVal.toNum) 80 := by
  have hs : scores ≠ [] := by
    intro hempty
    rw [hempty] at h
    simp at h
  constructor
  · have h1 : ¬ scores.isEmpty := by simpa using hs
    have h2 : ¬ (scores.filterMap PyVal.toNum).isEmpty := by simpa using h
    unfold ColorMapper.calibrate
    simp [h1, h2, lookup_dictInsert]
  · exact percentile_mono _ h 40 80 (by norm_num) (by norm_num) (by norm_num)

/-- Claim C1: `get_function_automation_score` returns the cost-weighted
average `Σ(sᵢ·cᵢ) / Σ(cᵢ)` of the subfunction scores whenever `Σ(cᵢ) ≠ 0`,
and returns exactly `0` whenever `Σ(cᵢ) = 0` (which covers the empty
subfunction list and all-zero costs) — it is total, never an error value. -/
theorem function_automation_score_weighted_avg (f : Func) :
    ((f.subfunctions.map (·.unit_cost_per_1000)).sum = 0 →
      get_function_automation_score f = 0) ∧
    ((f.subfunctions.map (·.unit_cost_per_1000)).sum ≠ 0 →
      get_function_automation_score f =
        (f.subfunctions.map
          (fun sf => get_automation_score sf.automation_scores * sf.unit_cost_per_1000)).sum
          / (f.subfunctions.map (·.unit_cost_per_1000)).sum) := by
  unfold get_function_automation_score
  constructor
  · intro h
    simp [h]
  · intro h
    simp [h]

/-- Witness for C1, at the empty function and at the function with costs
`[10, 20]` and scores `[2, 4]` (whose weighted average is `10/3`). -/
theorem function_automation_score_weighted_avg_witness :
    get_function_automation_score funcEmpty = 0 ∧
    get_function_automation_score funcA = 10 / 3 := by
  constructor
  · exact (function_automation_score_weighted_avg funcEmpty).1 (by simp [funcEmpty])
  · have h := (function_automation_score_weighted_avg funcA).2
      (by norm_num [funcA, sfA1, sfA2])
    rw [h]
    norm_num [funcA, sfA1, sfA2, get_automation_score]

/-- Claim C2: under the active thresholds `(p80, p40)` (which satisfy
`p40 ≤ p80` for every calibration, including the defaults), a score
`s ≥ p80` is tiered "High", `p40 ≤ s < p80` is "Medium", `s < p40` is
"Low", by both `get_color` and `get_label`; a `None` score yields the
"Low" label and the default color; and when no calibration is stored for
the active key the fixed defaults `p80 = 4.0`, `p40 = 3.0` are used. -/
theorem color_label_tier_spec (st : ColorMapperState) (s p80 p40 : ℚ)
    (ht : ColorMapper._get_thresholds st = (p80, p40)) (hle : p40 ≤ p80) :
    (s ≥ p80 → ColorMapper.get_label st (some s) = LABEL_HIGH ∧
      ColorMapper.get_color st (some s) = COLOR_HIGH) ∧
    (p40 ≤ s ∧ s < p80 → ColorMapper.get_label st (some s) = LABEL_MEDIUM ∧
      ColorMapper.get_color st (some s) = COLOR_MEDIUM) ∧
    (s < p40 → ColorMapper.get_label st (some s) = LABEL_LOW ∧
      ColorMapper.get_color st (some s) = COLOR_LOW) ∧
    (ColorMapper.get_label st Option.none = LABEL_LOW ∧
      ColorMapper.get_color st Option.none = COLOR_DEFAULT) ∧
    (st.thresholds.lookup st.active_industry = Option.none →
      ColorMapper._get_thresholds st
        = (ColorMapper._default_p80, ColorMapper._default_p40) ∧
      ColorMapper._default_p80 = 4 ∧ ColorMapper._default_p40 = 3) := by
  refine ⟨?_, ?_, ?_, ⟨rfl, rfl⟩, ?_⟩
  · intro hs
    constructor <;> simp [ColorMapper.get_label, ColorMapper.get_color, ht, hs]
  · intro hs
    constructor <;>
      simp [ColorMapper.get_label, ColorMapper.get_color, ht, hs.1, hs.2, not_le.mpr hs.2]
  · intro hs
    have h80 : ¬ s ≥ p80 := not_le.mpr (lt_of_lt_of_le hs hle)
    have h40 : ¬ s ≥ p40 := not_le.mpr hs
    constructor <;> simp [ColorMapper.get_label, ColorMapper.get_color, ht, h80, h40]
  · intro hnone
    refine ⟨?_, rfl, rfl⟩
    simp [ColorMapper._get_thresholds, hnone]

/-- Witness for C2 on the uncalibrated mapper (defaults `(4, 3)`): `5` is
"High", `3.5` is "Medium", `1` is "Low", `None` is "Low"/default. -/
theorem color_label_tier_spec_witness :
    (ColorMapper.get_label ColorMapper.initState (some 5) = LABEL_HIGH ∧
      ColorMapper.get_color ColorMapper.initState (some 5) = COLOR_HIGH) ∧
    (ColorMapper.get_label ColorMapper.initState (some (7/2)) = LABEL_MEDIUM ∧
      ColorMapper.get_color ColorMapper.initState (some (7/2)) = COLOR_MEDIUM) ∧
    (ColorMapper.get_label ColorMapper.initState (some 1) = LABEL_LOW ∧
      ColorMapper.get_color ColorMapper.initState (some 1) = COLOR_LOW) ∧
    (ColorMapper.get_label ColorMapper.initState Option.none = LABEL_LOW ∧
      ColorMapper.get_color ColorMapper.initState Option.none = COLOR_DEFAULT) := by
  have hth : ColorMapper._get_thresholds ColorMapper.initState = (4, 3) := rfl
  refine ⟨?_, ?_, ?_, ?_⟩
  · exact (color_label_tier_spec ColorMapper.initState 5 4 3 hth (by norm_num)).1
      (by norm_num)
  · exact (color_label_tier_spec ColorMapper.initState (7/2) 4 3 hth (by norm_num)).2.1
      (by norm_num)
  · exact (color_label_tier_spec ColorMapper.initState 1 4 3 hth (by norm_num)).2.2.1
      (by norm_num)
  · exact (color_label_tier_spec ColorMapper.initState 1 4 3 hth (by norm_num)).2.2.2.1

/-- Claim C5: calibrating on `[1, …, 10]` stores the linearly interpolated
percentiles `p80 = 8.2 = 41/5` and `p40 = 4.6 = 23/5`, under which `9` is
"High", `4` is "Low" and `5` is "Medium". -/
theorem calibrate_percentile_example :
    calExampleState.thresholds.lookup "k" = some (41/5, 23/5) ∧
    ColorMapper.get_label calExampleState (some 9) = LABEL_HIGH ∧
    ColorMapper.get_label calExampleState (some 4) = LABEL_LOW ∧
    ColorMapper.get_label calExampleState (some 5) = LABEL_MEDIUM := by
  have hcal : calExampleState =
      ⟨[("k", (41/5, 23/5))], "k"⟩ := by
    norm_num [calExampleState, ColorMapper.calibrate, ColorMapper.initState, PyVal.toNum,
      List.filterMap, percentile, List.insertionSort, List.orderedInsert, Int.toNat,
      List.getD, dictInsert]
  refine ⟨?_, ?_, ?_, ?_⟩ <;> rw [hcal] <;>
    norm_num [ColorMapper.get_label, ColorMapper._get_thresholds, List.lookup,
      Option.getD]

/-- Claim C6: under any fixed calibration state, the tier assigned by
`get_label` and `get_color` is monotone in the score, in the order
Low ≤ Medium ≤ High. -/
theorem color_label_monotone (st : ColorMapperState) (s₁ s₂ : ℚ) (h : s₁ < s₂) :
    labelRank (ColorMapper.get_label st (some s₁))
      ≤ labelRank (ColorMapper.get_label st (some s₂)) ∧
    colorRank (ColorMapper.get_color st (some s₁))
      ≤ colorRank (ColorMapper.get_color st (some s₂)) := by
  constructor <;>
  · simp only [ColorMapper.get_label, ColorMapper.get_color]
    split_ifs <;>
      simp_all [labelRank, colorRank, LABEL_HIGH, LABEL_MEDIUM, LABEL_LOW,
        COLOR_HIGH, COLOR_MEDIUM, COLOR_LOW] <;>
      linarith

/-- Witness for C6 at the fresh mapper state and the scores `1 < 2`. -/
theorem color_label_monotone_witness :
    labelRank (ColorMapper.get_label ColorMapper.initState (some 1))
      ≤ labelRank (ColorMapper.get_label ColorMapper.initState (some 2)) ∧
    colorRank (ColorMapper.get_color ColorMapper.initState (some 1))
      ≤ colorRank (ColorMapper.get_color ColorMapper.initState (some 2)) :=
  color_label_monotone ColorMapper.initState 1 2 (by norm_num)

/-- Claim C7: `calibrate` is idempotent — calibrating twice in succession
with the same scores and key leaves exactly the state (stored thresholds
and active key) of calibrating once. -/
theorem calibrate_idempotent (st : ColorMapperState) (scores : List PyVal)
    (key : String) :
    ColorMapper.calibrate (ColorMapper.calibrate st scores key) scores key
      = ColorMapper.calibrate st scores key := by
  unfold ColorMapper.calibrate
  by_cases h1 : scores.isEmpty
  · simp [h1]
  · by_cases h2 : (scores.filterMap PyVal.toNum).isEmpty
    · simp [h1, h2]
    · simp [h1, h2, dictInsert_idem]

/-- Claim C3 (counterexample): on the end-to-end "bfsi" example of the spec the
overall average produced by `build_l1_summary` is `3`, not the claimed
`3.165 = 633/200` — the summary averages the simple per-function means
`(2+4)/2 = 3` and `(3+3)/2 = 3`, not the cost-weighted function scores. -/
theorem l1_summary_end_to_end_counterexample :
    build_l1_summary_overall_avg bfsiFunctions = 3 ∧
    build_l1_summary_overall_avg bfsiFunctions ≠ 633/200 := by
  have h : build_l1_summary_overall_avg bfsiFunctions = 3 := by
    norm_num [build_l1_summary_overall_avg, l1_summary_func_score, round2, roundHalfEven,
      funcA, funcB, sfA1, sfA2, sfB1, sfB2, bfsiFunctions]
  exact ⟨h, by rw [h]; norm_num⟩

/-- Claim C3 (amended): on the end-to-end example, the cost-weighted
function scores computed by `get_function_automation_score` are
`(2·10 + 4·20)/30 = 10/3 ≈ 3.33` and `(3·5 + 3·5)/10 = 3`; but
`build_l1_summary` scores each function by the simple (unweighted) mean of
its subfunction scores — `3` for both — so the industry-level overall
average it produces is `(3 + 3)/2 = 3`, not `3.165`. -/
theorem l1_summary_end_to_end_amended :
    get_function_automation_score funcA = 10/3 ∧
    get_function_automation_score funcB = 3 ∧
    l1_summary_func_score funcA = 3 ∧
    l1_summary_func_score funcB = 3 ∧
    build_l1_summary_overall_avg bfsiFunctions = 3 := by
  refine ⟨?_, ?_, ?_, ?_, ?_⟩ <;>
    norm_num [get_function_automation_score, get_automation_score,
      build_l1_summary_overall_avg, l1_summary_func_score, round2, roundHalfEven,
      funcA, funcB, sfA1, sfA2, sfB1, sfB2, bfsiFunctions]

/-- Claim C4 (counterexample): the subfunction page for `funcLow` (industry
scores `[1, 2, 4, 5]`, own scores `[1, 2]`) colors its nodes against the
industry-wide calibration — its colors differ from those the same layout
builder produces under a calibration over the subfunction scores of the
function itself, so the subfunction-level layout is NOT locally recalibrated. -/
theorem subfunction_layout_not_locally_calibrated :
    (subfunction_page_data ColorMapper.initState contrastFunctions "bfsi" "flow").map
        TreemapData.colors ≠
      some (build_subfunction_treemap_data
        (ColorMapper.calibrate ColorMapper.initState [PyVal.num 1, PyVal.num 2] "flow")
        funcLow).colors := by
  have hind : load_industry_calibration ColorMapper.initState contrastFunctions "bfsi"
      = ⟨[("bfsi", (22/5, 12/5))], "bfsi"⟩ := by
    norm_num [load_industry_calibration, ColorMapper.calibrate, ColorMapper.initState,
      ColorMapper.set_active_industry, PyVal.toNum, List.filterMap, percentile,
      List.insertionSort, List.orderedInsert, Int.toNat, List.getD, dictInsert,
      contrastFunctions, funcLow, funcHigh, sfLow1, sfLow2, sfHigh1, sfHigh2]
  have hloc : ColorMapper.calibrate ColorMapper.initState [PyVal.num 1, PyVal.num 2] "flow"
      = ⟨[("flow", (9/5, 7/5))], "flow"⟩ := by
    norm_num [ColorMapper.calibrate, ColorMapper.initState, PyVal.toNum,
      List.filterMap, percentile, List.insertionSort, List.orderedInsert, Int.toNat,
      List.getD, dictInsert]
  rw [hloc]
  unfold subfunction_page_data
  rw [hind]
  norm_num [get_function, List.find?, contrastFunctions, funcLow, funcHigh,
    sfLow1, sfLow2, build_subfunction_treemap_data, get_automation_score,
    ColorMapper.get_color, ColorMapper._get_thresholds, List.lookup, Option.getD,
    COLOR_HIGH, COLOR_MEDIUM, COLOR_LOW, COLOR_DEFAULT]
  decide

/-- Claim C4 (amended): layout building performs no recalibration.  The
subfunction page computes every node color with the `ColorMapper` in the
state left by `load_industry` — a calibration over ALL of the subfunction
scores of the industry — and `build_subfunction_treemap_data` passes that
state through unchanged to each `get_color` call. -/
theorem subfunction_layout_industry_calibrated (st : ColorMapperState)
    (functions : List Func) (industry_key function_id : String) (f : Func)
    (hf : get_function functions function_id = some f) :
    subfunction_page_data st functions industry_key function_id =
      some { labels := f.name :: f.subfunctions.map (·.name)
             parents := "" :: f.subfunctions.map (fun _ => f.name)
             values := 0 :: f.subfunctions.map (·.unit_cost_per_1000)
             colors := "#132038" :: f.subfunctions.map (fun sf =>
               ColorMapper.get_color (load_industry_calibration st functions industry_key)
                 (some (get_automation_score sf.automation_scores))) } := by
  unfold subfunction_page_data
  rw [hf]
  rfl

/-- Witness for the amended C4, at the contrasting demo industry and the
function `funcLow`. -/
theorem subfunction_layout_industry_calibrated_witness :
    subfunction_page_data ColorMapper.initState contrastFunctions "bfsi" "flow" =
      some { labels := funcLow.name :: funcLow.subfunctions.map (·.name)
             parents := "" :: funcLow.subfunctions.map (fun _ => funcLow.name)
             values := 0 :: funcLow.subfunctions.map (·.unit_cost_per_1000)
             colors := "#132038" :: funcLow.subfunctions.map (fun sf =>
               ColorMapper.get_color
                 (load_industry_calibration ColorMapper.initState contrastFunctions "bfsi")
                 (some (get_automation_score sf.automation_scores))) } :=
  subfunction_layout_industry_calibrated ColorMapper.initState contrastFunctions
    "bfsi" "flow" funcLow rfl

/-- Claim C8: `get_function_unit_cost` is exactly the sum of the
per-subfunction costs; since `load_industry` stores the same spreadsheet
cost in `unit_cost_per_1000` and `cost_pct_revenue` (see
`load_row_cost_fields_eq`), this equals the sum of the cost-as-%-of-revenue
values, and it is `0` for an empty subfunction list. -/
theorem function_unit_cost_sum (f : Func)
    (hinv : ∀ sf ∈ f.subfunctions, sf.unit_cost_per_1000 = sf.cost_pct_revenue) :
    get_function_unit_cost f = (f.subfunctions.map (·.cost_pct_revenue)).sum ∧
    (f.subfunctions = [] → get_function_unit_cost f = 0) := by
  constructor
  · unfold get_function_unit_cost
    congr 1
    exact List.map_congr_left hinv
  · intro h
    simp [get_function_unit_cost, h]

/-- Witness for C8 at `funcA` (costs `[10, 20]`, total `30`) and at the
empty function. -/
theorem function_unit_cost_sum_witness :
    get_function_unit_cost funcA = (funcA.subfunctions.map (·.cost_pct_revenue)).sum ∧
    get_function_unit_cost funcEmpty = 0 := by
  constructor
  · exact (function_unit_cost_sum funcA
      (by intro sf hsf; fin_cases hsf <;> rfl)).1
  · exact (function_unit_cost_sum funcEmpty
      (by intro sf hsf; simp [funcEmpty] at hsf)).2 rfl

/-- Claim C9: unknown keys yield a not-found value, never a crash:
`get_function` returns `None` when no function has the requested id, and
`get_subfunction` returns `None` both when the function id is unknown and
when the subfunction id is unknown within a found function. -/
theorem lookup_unknown_key_not_found (functions : List Func) (fid sfid : String) :
    ((∀ f ∈ functions, f.id ≠ fid) → get_function functions fid = Option.none) ∧
    ((∀ f ∈ functions, f.id ≠ fid) → get_subfunction functions fid sfid = Option.none) ∧
    (∀ f, get_function functions fid = some f →
      (∀ sf ∈ f.subfunctions, sf.id ≠ sfid) →
      get_subfunction functions fid sfid = Option.none) := by
  have hfind : (∀ f ∈ functions, f.id ≠ fid) →
      get_function functions fid = Option.none := by
    intro h
    simp only [get_function, List.find?_eq_none, beq_iff_eq]
    exact h
  refine ⟨hfind, ?_, ?_⟩
  · intro h
    simp [get_subfunction, hfind h]
  · intro f hf hsf
    simp only [get_subfunction, hf]
    simp only [List.find?_eq_none, beq_iff_eq]
    exact hsf

/-- Witness for C9: on the demo industry, the unknown function id
`"payments"` and the unknown subfunction id `"zz"` all yield `None`. -/
theorem lookup_unknown_key_not_found_witness :
    get_function bfsiFunctions "payments" = Option.none ∧
    get_subfunction bfsiFunctions "payments" "a1" = Option.none ∧
    get_subfunction bfsiFunctions "function_a" "zz" = Option.none := by
  refine ⟨?_, ?_, ?_⟩
  · exact (lookup_unknown_key_not_found bfsiFunctions "payments" "a1").1
      (by intro f hf; fin_cases hf <;> decide)
  · exact (lookup_unknown_key_not_found bfsiFunctions "payments" "a1").2.1
      (by intro f hf; fin_cases hf <;> decide)
  · exact (lookup_unknown_key_not_found bfsiFunctions "function_a" "zz").2.2 funcA rfl
      (by intro sf hsf; fin_cases hsf <;> decide)

/-- Claim C10 (implicit): calibrating with a non-empty list whose entries
are all `None` or `NaN` is a complete no-op — the whole `ColorMapper`
state, stored thresholds and active key alike, is returned unchanged. -/
theorem calibrate_all_null_noop (st : ColorMapperState) (scores : List PyVal)
    (key : String) (hne : scores ≠ [])
    (hall : ∀ s ∈ scores, s = PyVal.none ∨ s = PyVal.nan) :
    ColorMapper.calibrate st scores key = st := by
  have h2 : scores.filterMap PyVal.toNum = [] := by
    rw [List.filterMap_eq_nil_iff]
    intro s hs
    rcases hall s hs with h | h <;> simp [h, PyVal.toNum]
  unfold ColorMapper.calibrate
  simp [h2]

/-- Witness for C10 at the fresh state and the list `[None, NaN]`. -/
theorem calibrate_all_null_noop_witness :
    ColorMapper.calibrate ColorMapper.initState [PyVal.none, PyVal.nan] "k"
      = ColorMapper.initState :=
  calibrate_all_null_noop ColorMapper.initState [PyVal.none, PyVal.nan] "k"
    (by simp)
    (by intro s hs; fin_cases hs <;> simp)
